import Mathlib

/-!
Verification of the dual-model consensus arbitration logic of the
Anti-Spoofing Detection platform, together with the result-rendering
logic of its React frontend (`frontend/src/App.jsx`).

The backend consensus engine lives in `backend/main.py`, which is not part
of the source tree available here; its behaviour is therefore modelled
faithfully from the specification (spec.md, section 4.1), as noted on each
affected definition.  The frontend definitions are translated directly from
`frontend/src/App.jsx`.

Confidences are `float in [0,1]` in the specification; they are embedded as
exact rationals so that the arithmetic of the arbitration rules
(`max`, the fixed 0.25 penalty, the floor at 0) is exact.
-/

/-- Modelled from the spec: the three possible final verdicts of the
consensus engine (spec.md section 3, `Verdict.verdict`). -/
inductive VerdictKind where
  | REAL
  | SPOOF
  | INCONCLUSIVE
deriving DecidableEq, Repr

/-- Modelled from the spec: a `DetectionResult` produced by a detector
adapter (spec.md section 3): a raw label, a confidence and a
face-detected flag. -/
structure DetectionResult where
  raw_label : String
  confidence : ℚ
  face_detected : Bool
deriving DecidableEq, Repr

/-- Modelled from the spec: the `details` component of a `Verdict`
(spec.md section 3): the gatekeeper result is always present, the
secondary result may be absent. -/
structure Details where
  gatekeeper : DetectionResult
  secondary : Option DetectionResult
deriving DecidableEq, Repr

/-- Modelled from the spec: the output of the consensus engine
(spec.md section 3). -/
structure Verdict where
  verdict : VerdictKind
  confidence : ℚ
  details : Details
deriving DecidableEq, Repr

/-- Modelled from the spec: the error taxonomy of the consensus engine
(spec.md section 7).  `InvalidDetectionLabel` signals a label outside
the recognised set; `MissingSecondaryResult` signals a failed secondary
call after the gate passed. -/
inductive ArbError where
  | InvalidDetectionLabel
  | MissingSecondaryResult
deriving DecidableEq, Repr

/-- Modelled from the spec: the label-driven part of the arbitration,
steps 3 and 4 of the contract in spec.md section 4.1, reached only after
the face-presence gate has passed and the secondary detector has been
invoked.  Labels outside the recognised set are signalled as
`InvalidDetectionLabel` (spec.md sections 4.1 and 7), never coerced. -/
def arbitrateCore (gatekeeper secondary : DetectionResult) : Except ArbError Verdict :=
  if gatekeeper.raw_label = "fake" then
    if secondary.raw_label = "fake" then
      Except.ok ⟨ VerdictKind.SPOOF, max gatekeeper.confidence secondary.confidence,
                  ⟨ gatekeeper, some secondary ⟩ ⟩
    else if secondary.raw_label = "real" then
      Except.ok ⟨ VerdictKind.SPOOF, gatekeeper.confidence, ⟨ gatekeeper, some secondary ⟩ ⟩
    else
      Except.error ArbError.InvalidDetectionLabel
  else if gatekeeper.raw_label = "real" then
    if secondary.raw_label = "real" then
      Except.ok ⟨ VerdictKind.REAL, gatekeeper.confidence, ⟨ gatekeeper, some secondary ⟩ ⟩
    else if secondary.raw_label = "fake" then
      Except.ok ⟨ VerdictKind.REAL, max 0 (gatekeeper.confidence - 25 / 100),
                  ⟨ gatekeeper, some secondary ⟩ ⟩
    else
      Except.error ArbError.InvalidDetectionLabel
  else
    Except.error ArbError.InvalidDetectionLabel

/-- Modelled from the spec: the full contract
`arbitrate(gatekeeper, secondaryFn) -> Verdict` of spec.md section 4.1,
instrumented with the number of invocations of the secondary detector
function.  Step 1 is the face-presence gate: when
`gatekeeper.face_detected = false` the engine returns `INCONCLUSIVE` with
the gatekeeper confidence, an absent secondary in the details, and the
secondary detector is not invoked (count 0).  Otherwise the secondary is
invoked exactly once (count 1) and steps 3 and 4 decide the verdict. -/
def arbitrateT (gatekeeper : DetectionResult) (secondaryFn : Unit → DetectionResult) :
    Except ArbError Verdict × Nat :=
  if gatekeeper.face_detected = false then
    (Except.ok ⟨ VerdictKind.INCONCLUSIVE, gatekeeper.confidence, ⟨ gatekeeper, none ⟩ ⟩, 0)
  else
    (arbitrateCore gatekeeper (secondaryFn ()), 1)

/-- Modelled from the spec: the result of the arbitration contract of
spec.md section 4.1. -/
def arbitrate (gatekeeper : DetectionResult) (secondaryFn : Unit → DetectionResult) :
    Except ArbError Verdict :=
  (arbitrateT gatekeeper secondaryFn).1

/-- Modelled from the spec: how many times the arbitration invoked the
secondary detector function (the call count observed by a test double,
spec.md section 8). -/
def secondaryCalls (gatekeeper : DetectionResult) (secondaryFn : Unit → DetectionResult) :
    Nat :=
  (arbitrateT gatekeeper secondaryFn).2

/-- The presentation record computed by `getVerdictDetails` in
`frontend/src/App.jsx` (lines 51-78); the icon is represented by the name
of the icon component used in the JSX. -/
structure VerdictStyle where
  icon : String
  bg : String
  border : String
  text : String
  label : String
deriving DecidableEq, Repr

/-- Translation of `getVerdictDetails` from `frontend/src/App.jsx`
(lines 51-78): a switch on the verdict string with cases for `REAL` and
`SPOOF` and a default branch for everything else. -/
def getVerdictDetails (verdict : String) : VerdictStyle :=
  if verdict = "REAL" then
    ⟨ "ShieldCheck", "bg-emerald-50", "border-emerald-200", "text-emerald-900",
      "Authentic Access Granted" ⟩
  else if verdict = "SPOOF" then
    ⟨ "ShieldAlert", "bg-rose-50", "border-rose-200", "text-rose-900",
      "Security Threat Detected" ⟩
  else
    ⟨ "Info", "bg-amber-50", "border-amber-200", "text-amber-900",
      "Inconclusive Consensus" ⟩

/-- One detector entry of the backend response as read by the frontend
(`result.details.huggingface` and `result.details.roboflow` in
`frontend/src/App.jsx`). -/
structure FrontDetector where
  raw_label : String
  confidence : ℚ
deriving DecidableEq, Repr

/-- The `details` object of the backend response as read by the frontend;
either entry may be absent from the JSON payload, in which case a field
access on it fails (a JavaScript `TypeError`). -/
structure FrontDetails where
  huggingface : Option FrontDetector
  roboflow : Option FrontDetector
deriving DecidableEq, Repr

/-- The backend response held in the `result` state of `App` in
`frontend/src/App.jsx`. -/
structure FrontResult where
  verdict : String
  confidence : ℚ
  details : FrontDetails
deriving DecidableEq, Repr

/-- The data read out of a `result` by the results dashboard of `App`
(`frontend/src/App.jsx` lines 218-264): the verdict string and its
presentation label, the global confidence, and the confidence and raw
label of each of the two detector entries. -/
structure RenderedDashboard where
  verdictText : String
  verdictLabel : String
  globalConfidence : ℚ
  huggingfaceConfidence : ℚ
  huggingfaceLabel : String
  roboflowConfidence : ℚ
  roboflowLabel : String
deriving DecidableEq, Repr

/-- Translation of the results dashboard of `App` in
`frontend/src/App.jsx` (lines 218-264).  For a non-null `result` the JSX
reads `result.verdict`, `result.confidence`,
`result.details.huggingface.confidence`,
`result.details.huggingface.raw_label`,
`result.details.roboflow.confidence` and
`result.details.roboflow.raw_label` with no guard on the verdict; an
absent detector entry makes the field access fail, modelled as `none`. -/
def renderResultsDashboard (result : FrontResult) : Option RenderedDashboard :=
  match result.details.huggingface, result.details.roboflow with
  | some hf, some rf =>
      some ⟨ result.verdict, (getVerdictDetails result.verdict).label, result.confidence,
             hf.confidence, hf.raw_label, rf.confidence, rf.raw_label ⟩
  | _, _ => none

/-- Every successful outcome of `arbitrateCore` carries a `SPOOF` or a
`REAL` verdict, never `INCONCLUSIVE`. -/
theorem arbitrateCore_verdict_not_inconclusive
    (g s : DetectionResult) (v : Verdict)
    (hv : arbitrateCore g s = Except.ok v) :
    v.verdict ≠ VerdictKind.INCONCLUSIVE := by
  unfold arbitrateCore at hv
  split_ifs at hv <;> injection hv with hv <;> subst hv <;> simp

/-- C1: for every pair of inputs to `arbitrate`, the returned verdict is
`INCONCLUSIVE` if and only if `gatekeeper.face_detected` is false; and
whenever `gatekeeper.face_detected` is false, the returned confidence
equals the gatekeeper confidence, the secondary detector function is
never invoked, and `details.secondary` is absent from the result. -/
theorem arbitrate_inconclusive_iff_no_face
    (g : DetectionResult) (f : Unit → DetectionResult) :
    (∀ v : Verdict, arbitrate g f = Except.ok v →
        (v.verdict = VerdictKind.INCONCLUSIVE ↔ g.face_detected = false))
    ∧ (g.face_detected = false →
        arbitrate g f =
          Except.ok ⟨ VerdictKind.INCONCLUSIVE, g.confidence, ⟨ g, none ⟩ ⟩
        ∧ secondaryCalls g f = 0) := by
  constructor
  · intro v hv
    by_cases hface : g.face_detected = false
    · simp only [arbitrate, arbitrateT, hface, if_true, if_pos] at hv
      simp only [Except.ok.injEq] at hv
      subst hv
      simp [hface]
    · simp only [arbitrate, arbitrateT, hface, if_neg, ite_false] at hv
      have hne := arbitrateCore_verdict_not_inconclusive g (f ()) v hv
      simp [hne, hface]
  · intro hface
    constructor
    · simp [arbitrate, arbitrateT, hface]
    · simp [secondaryCalls, arbitrateT, hface]

/-- C1 witness: the concrete gate-failure scenario 5 of the spec. -/
theorem arbitrate_inconclusive_iff_no_face_witness :
    arbitrate ⟨ "fake", 2 / 5, false ⟩ (fun _ => ⟨ "real", 1 / 2, true ⟩) =
      Except.ok ⟨ VerdictKind.INCONCLUSIVE, 2 / 5, ⟨ ⟨ "fake", 2 / 5, false ⟩, none ⟩ ⟩
    ∧ secondaryCalls ⟨ "fake", 2 / 5, false ⟩ (fun _ => ⟨ "real", 1 / 2, true ⟩) = 0 :=
  (arbitrate_inconclusive_iff_no_face ⟨ "fake", 2 / 5, false ⟩
    (fun _ => ⟨ "real", 1 / 2, true ⟩)).2 rfl

/-- C2: with a face detected, gatekeeper `"real"` and secondary `"fake"`,
the verdict stays `REAL` with confidence `max 0 (gatekeeper - 0.25)`,
which is never negative. -/
theorem arbitrate_real_fake_penalty
    (g : DetectionResult) (f : Unit → DetectionResult)
    (hface : g.face_detected = true)
    (hg : g.raw_label = "real") (hs : (f ()).raw_label = "fake") :
    arbitrate g f =
      Except.ok ⟨ VerdictKind.REAL, max 0 (g.confidence - 25 / 100),
                  ⟨ g, some (f ()) ⟩ ⟩
    ∧ 0 ≤ max 0 (g.confidence - 25 / 100) := by
  refine ⟨ ?_, le_max_left 0 _ ⟩
  simp [arbitrate, arbitrateT, arbitrateCore, hface, hg, hs]

/-- C2 witness: the concrete scenario 2 of the spec, yielding
`REAL` with confidence `0.05`. -/
theorem arbitrate_real_fake_penalty_witness :
    arbitrate ⟨ "real", 30 / 100, true ⟩ (fun _ => ⟨ "fake", 80 / 100, true ⟩) =
      Except.ok ⟨ VerdictKind.REAL, max 0 ((30 : ℚ) / 100 - 25 / 100),
                  ⟨ ⟨ "real", 30 / 100, true ⟩, some ⟨ "fake", 80 / 100, true ⟩ ⟩ ⟩
    ∧ (0 : ℚ) ≤ max 0 ((30 : ℚ) / 100 - 25 / 100) :=
  arbitrate_real_fake_penalty ⟨ "real", 30 / 100, true ⟩
    (fun _ => ⟨ "fake", 80 / 100, true ⟩) rfl rfl rfl

/-- C3: with a face detected and both detectors saying `"fake"`, the
verdict is `SPOOF` with confidence the maximum of the two confidences. -/
theorem arbitrate_fake_fake_max
    (g : DetectionResult) (f : Unit → DetectionResult)
    (hface : g.face_detected = true)
    (hg : g.raw_label = "fake") (hs : (f ()).raw_label = "fake") :
    arbitrate g f =
      Except.ok ⟨ VerdictKind.SPOOF, max g.confidence (f ()).confidence,
                  ⟨ g, some (f ()) ⟩ ⟩ := by
  simp [arbitrate, arbitrateT, arbitrateCore, hface, hg, hs]

/-- C3 witness: the concrete scenario 3 of the spec, yielding
`SPOOF` with confidence `0.85`. -/
theorem arbitrate_fake_fake_max_witness :
    arbitrate ⟨ "fake", 70 / 100, true ⟩ (fun _ => ⟨ "fake", 85 / 100, true ⟩) =
      Except.ok ⟨ VerdictKind.SPOOF, max ((70 : ℚ) / 100) ((85 : ℚ) / 100),
                  ⟨ ⟨ "fake", 70 / 100, true ⟩, some ⟨ "fake", 85 / 100, true ⟩ ⟩ ⟩ :=
  arbitrate_fake_fake_max ⟨ "fake", 70 / 100, true ⟩
    (fun _ => ⟨ "fake", 85 / 100, true ⟩) rfl rfl rfl

/-- C4: with a face detected, gatekeeper `"fake"` and secondary
`"real"`, the verdict is `SPOOF` with exactly the gatekeeper confidence,
and the secondary result is recorded in the details. -/
theorem arbitrate_fake_real_gatekeeper
    (g : DetectionResult) (f : Unit → DetectionResult)
    (hface : g.face_detected = true)
    (hg : g.raw_label = "fake") (hs : (f ()).raw_label = "real") :
    arbitrate g f =
      Except.ok ⟨ VerdictKind.SPOOF, g.confidence, ⟨ g, some (f ()) ⟩ ⟩ := by
  simp [arbitrate, arbitrateT, arbitrateCore, hface, hg, hs]

/-- C4 witness: the concrete scenario 4 of the spec, yielding
`SPOOF` with confidence `0.60` untouched by the secondary's `0.99`. -/
theorem arbitrate_fake_real_gatekeeper_witness :
    arbitrate ⟨ "fake", 60 / 100, true ⟩ (fun _ => ⟨ "real", 99 / 100, true ⟩) =
      Except.ok ⟨ VerdictKind.SPOOF, (60 : ℚ) / 100,
                  ⟨ ⟨ "fake", 60 / 100, true ⟩, some ⟨ "real", 99 / 100, true ⟩ ⟩ ⟩ :=
  arbitrate_fake_real_gatekeeper ⟨ "fake", 60 / 100, true ⟩
    (fun _ => ⟨ "real", 99 / 100, true ⟩) rfl rfl rfl

/-- C5: with a face detected and both detectors saying `"real"`, the
verdict is `REAL` with exactly the gatekeeper confidence and no
penalty; the secondary confidence is ignored. -/
theorem arbitrate_real_real_no_penalty
    (g : DetectionResult) (f : Unit → DetectionResult)
    (hface : g.face_detected = true)
    (hg : g.raw_label = "real") (hs : (f ()).raw_label = "real") :
    arbitrate g f =
      Except.ok ⟨ VerdictKind.REAL, g.confidence, ⟨ g, some (f ()) ⟩ ⟩ := by
  simp [arbitrate, arbitrateT, arbitrateCore, hface, hg, hs]

/-- C5 witness: the concrete scenario 1 of the spec, yielding
`REAL` with confidence `0.90` despite the secondary's higher `0.95`. -/
theorem arbitrate_real_real_no_penalty_witness :
    arbitrate ⟨ "real", 90 / 100, true ⟩ (fun _ => ⟨ "real", 95 / 100, true ⟩) =
      Except.ok ⟨ VerdictKind.REAL, (90 : ℚ) / 100,
                  ⟨ ⟨ "real", 90 / 100, true ⟩, some ⟨ "real", 95 / 100, true ⟩ ⟩ ⟩ :=
  arbitrate_real_real_no_penalty ⟨ "real", 90 / 100, true ⟩
    (fun _ => ⟨ "real", 95 / 100, true ⟩) rfl rfl rfl

/-- C6: for inputs whose confidences lie in the unit interval, the
confidence of any verdict returned by `arbitrate` lies in the unit
interval, including after the `0.25` disagreement penalty. -/
theorem arbitrate_confidence_unit_interval
    (g : DetectionResult) (f : Unit → DetectionResult)
    (h0g : 0 ≤ g.confidence) (h1g : g.confidence ≤ 1)
    (h0s : 0 ≤ (f ()).confidence) (h1s : (f ()).confidence ≤ 1)
    (v : Verdict) (hv : arbitrate g f = Except.ok v) :
    0 ≤ v.confidence ∧ v.confidence ≤ 1 := by
  unfold arbitrate arbitrateT arbitrateCore at hv
  split_ifs at hv <;>
    simp only at hv <;>
    injection hv with hv <;>
    subst hv <;>
    constructor
  · exact h0g
  · exact h1g
  · exact le_trans h0g (le_max_left _ _)
  · exact max_le h1g h1s
  · exact h0g
  · exact h1g
  · exact h0g
  · exact h1g
  · exact le_max_left 0 _
  · exact max_le (by norm_num) (by linarith)

/-- C6 witness: a low-confidence gatekeeper (`0.10`) under the
disagreement penalty still yields a confidence inside the unit
interval. -/
theorem arbitrate_confidence_unit_interval_witness :
    0 ≤ (Verdict.mk VerdictKind.REAL (max 0 ((1 : ℚ) / 10 - 25 / 100))
          ⟨ ⟨ "real", 1 / 10, true ⟩, some ⟨ "fake", 1 / 2, true ⟩ ⟩).confidence
    ∧ (Verdict.mk VerdictKind.REAL (max 0 ((1 : ℚ) / 10 - 25 / 100))
          ⟨ ⟨ "real", 1 / 10, true ⟩, some ⟨ "fake", 1 / 2, true ⟩ ⟩).confidence ≤ 1 :=
  arbitrate_confidence_unit_interval ⟨ "real", 1 / 10, true ⟩
    (fun _ => ⟨ "fake", 1 / 2, true ⟩)
    (by norm_num) (by norm_num) (by norm_num) (by norm_num) _ rfl

/-- C7 counterexample: a gatekeeper result with the malformed label
`"banana"` but `face_detected = false` is short-circuited by the
face-presence gate to an `INCONCLUSIVE` verdict; `arbitrate` does not
return an `InvalidDetectionLabel` error for it, contradicting the claim
that every malformed-label input yields that error. -/
theorem arbitrate_malformed_label_counterexample :
    arbitrate ⟨ "banana", 2 / 5, false ⟩ (fun _ => ⟨ "real", 1 / 2, true ⟩) =
      Except.ok ⟨ VerdictKind.INCONCLUSIVE, 2 / 5,
                  ⟨ ⟨ "banana", 2 / 5, false ⟩, none ⟩ ⟩
    ∧ arbitrate ⟨ "banana", 2 / 5, false ⟩ (fun _ => ⟨ "real", 1 / 2, true ⟩) ≠
        Except.error ArbError.InvalidDetectionLabel := by
  refine ⟨ rfl, ?_ ⟩
  simp [arbitrate, arbitrateT]

/-- C7 (amended): `arbitrate` never returns an error on well-formed
inputs; and once the face-presence gate has passed, a raw label outside
the recognised set — whether on the gatekeeper or on the secondary — is
signalled as an `InvalidDetectionLabel` error, never coerced to a
`REAL` or `SPOOF` verdict.  (When `face_detected` is false the labels
are never inspected and the gate returns `INCONCLUSIVE`.) -/
theorem arbitrate_invalid_label_amended
    (g : DetectionResult) (f : Unit → DetectionResult) :
    ((g.raw_label = "real" ∨ g.raw_label = "fake") →
      ((f ()).raw_label = "real" ∨ (f ()).raw_label = "fake") →
      ∃ v, arbitrate g f = Except.ok v)
    ∧ (g.face_detected = true → g.raw_label ≠ "real" → g.raw_label ≠ "fake" →
        arbitrate g f = Except.error ArbError.InvalidDetectionLabel)
    ∧ (g.face_detected = true →
        (f ()).raw_label ≠ "real" → (f ()).raw_label ≠ "fake" →
        arbitrate g f = Except.error ArbError.InvalidDetectionLabel) := by
  refine ⟨ ?_, ?_, ?_ ⟩
  · intro hg hs
    by_cases hface : g.face_detected = false
    · exact ⟨ ⟨ VerdictKind.INCONCLUSIVE, g.confidence, ⟨ g, none ⟩ ⟩,
        by simp [arbitrate, arbitrateT, hface] ⟩
    · rcases hg with hg | hg <;> rcases hs with hs | hs
      · exact ⟨ ⟨ VerdictKind.REAL, g.confidence, ⟨ g, some (f ()) ⟩ ⟩,
          by simp [arbitrate, arbitrateT, arbitrateCore, hface, hg, hs] ⟩
      · exact ⟨ ⟨ VerdictKind.REAL, max 0 (g.confidence - 25 / 100),
            ⟨ g, some (f ()) ⟩ ⟩,
          by simp [arbitrate, arbitrateT, arbitrateCore, hface, hg, hs] ⟩
      · exact ⟨ ⟨ VerdictKind.SPOOF, g.confidence, ⟨ g, some (f ()) ⟩ ⟩,
          by simp [arbitrate, arbitrateT, arbitrateCore, hface, hg, hs] ⟩
      · exact ⟨ ⟨ VerdictKind.SPOOF, max g.confidence (f ()).confidence,
            ⟨ g, some (f ()) ⟩ ⟩,
          by simp [arbitrate, arbitrateT, arbitrateCore, hface, hg, hs] ⟩
  · intro hface hgr hgf
    simp [arbitrate, arbitrateT, arbitrateCore, hface, hgr, hgf]
  · intro hface hsr hsf
    by_cases hg1 : g.raw_label = "fake"
    · simp [arbitrate, arbitrateT, arbitrateCore, hface, hg1, hsr, hsf]
    · by_cases hg2 : g.raw_label = "real" <;>
        simp [arbitrate, arbitrateT, arbitrateCore, hface, hg1, hg2, hsr, hsf]

/-- C7 witness: with a face detected, the malformed gatekeeper label
`"banana"` is signalled as an `InvalidDetectionLabel` error. -/
theorem arbitrate_invalid_label_amended_witness :
    arbitrate ⟨ "banana", 1 / 2, true ⟩ (fun _ => ⟨ "real", 1 / 2, true ⟩) =
      Except.error ArbError.InvalidDetectionLabel :=
  (arbitrate_invalid_label_amended ⟨ "banana", 1 / 2, true ⟩
    (fun _ => ⟨ "real", 1 / 2, true ⟩)).2.1 rfl (by decide) (by decide)

/-- C8: the arbitration is deterministic and depends on nothing but its
two inputs: equal gatekeeper results and secondary detector functions
returning equal results give equal verdicts and equal secondary call
counts. -/
theorem arbitrate_deterministic
    (g₁ g₂ : DetectionResult) (f₁ f₂ : Unit → DetectionResult)
    (hg : g₁ = g₂) (hf : f₁ () = f₂ ()) :
    arbitrate g₁ f₁ = arbitrate g₂ f₂
    ∧ secondaryCalls g₁ f₁ = secondaryCalls g₂ f₂ := by
  subst hg
  unfold arbitrate secondaryCalls arbitrateT
  rw [hf]
  exact ⟨ rfl, rfl ⟩

/-- C8 witness: two syntactically different secondary detector functions
with equal return values give the same arbitration outcome. -/
theorem arbitrate_deterministic_witness :
    arbitrate ⟨ "real", 9 / 10, true ⟩ (fun _ => ⟨ "fake", 3 / 10, true ⟩) =
      arbitrate ⟨ "real", 9 / 10, true ⟩ (fun u => ⟨ "fake", 3 / 10, u = u ⟩)
    ∧ secondaryCalls ⟨ "real", 9 / 10, true ⟩ (fun _ => ⟨ "fake", 3 / 10, true ⟩) =
        secondaryCalls ⟨ "real", 9 / 10, true ⟩ (fun u => ⟨ "fake", 3 / 10, u = u ⟩) :=
  arbitrate_deterministic ⟨ "real", 9 / 10, true ⟩ ⟨ "real", 9 / 10, true ⟩
    (fun _ => ⟨ "fake", 3 / 10, true ⟩) (fun u => ⟨ "fake", 3 / 10, u = u ⟩)
    rfl (by simp)

/-- C9: for every non-null result, the dashboard renders — reading both
detector entries regardless of the verdict string — exactly when both
`details.huggingface` and `details.roboflow` are present; when both are
present the rendered data contains the confidence and raw label of each
entry. -/
theorem renderResultsDashboard_reads_both_details (r : FrontResult) :
    ((renderResultsDashboard r).isSome = true ↔
      (r.details.huggingface.isSome = true ∧ r.details.roboflow.isSome = true))
    ∧ (∀ hf rf, r.details.huggingface = some hf → r.details.roboflow = some rf →
        renderResultsDashboard r =
          some ⟨ r.verdict, (getVerdictDetails r.verdict).label, r.confidence,
                 hf.confidence, hf.raw_label, rf.confidence, rf.raw_label ⟩) := by
  constructor
  · unfold renderResultsDashboard
    cases r.details.huggingface <;> cases r.details.roboflow <;> simp
  · intro hf rf hh hr
    unfold renderResultsDashboard
    rw [hh, hr]

/-- C9 witness: an `INCONCLUSIVE` result lacking both detector entries
does not render, and one with both entries renders their fields. -/
theorem renderResultsDashboard_reads_both_details_witness :
    ((renderResultsDashboard ⟨ "INCONCLUSIVE", 2 / 5, ⟨ none, none ⟩ ⟩).isSome = true ↔
      ((FrontDetails.mk none none).huggingface.isSome = true ∧
        (FrontDetails.mk none none).roboflow.isSome = true)) :=
  (renderResultsDashboard_reads_both_details ⟨ "INCONCLUSIVE", 2 / 5, ⟨ none, none ⟩ ⟩).1

/-- C10: `getVerdictDetails` is total on strings: `"REAL"` maps to the
Authentic Access Granted presentation, `"SPOOF"` to the Security Threat
Detected presentation, and every other string — `"INCONCLUSIVE"`
included — to the Inconclusive Consensus presentation. -/
theorem getVerdictDetails_total (s : String) :
    getVerdictDetails "REAL" =
      ⟨ "ShieldCheck", "bg-emerald-50", "border-emerald-200", "text-emerald-900",
        "Authentic Access Granted" ⟩
    ∧ getVerdictDetails "SPOOF" =
        ⟨ "ShieldAlert", "bg-rose-50", "border-rose-200", "text-rose-900",
          "Security Threat Detected" ⟩
    ∧ getVerdictDetails "INCONCLUSIVE" =
        ⟨ "Info", "bg-amber-50", "border-amber-200", "text-amber-900",
          "Inconclusive Consensus" ⟩
    ∧ (s ≠ "REAL" → s ≠ "SPOOF" →
        getVerdictDetails s =
          ⟨ "Info", "bg-amber-50", "border-amber-200", "text-amber-900",
            "Inconclusive Consensus" ⟩) := by
  refine ⟨ rfl, rfl, rfl, ?_ ⟩
  intro h1 h2
  simp [getVerdictDetails, h1, h2]

/-- C10 witness: an unrecognised verdict string falls through to the
Inconclusive Consensus presentation. -/
theorem getVerdictDetails_total_witness :
    getVerdictDetails "GLITCH" =
      ⟨ "Info", "bg-amber-50", "border-amber-200", "text-amber-900",
        "Inconclusive Consensus" ⟩ :=
  (getVerdictDetails_total "GLITCH").2.2.2 (by decide) (by decide)
